import Mathlib

/-!
Shallow embedding of the Bayesian Multi-Fidelity Monte-Carlo (BMFMC) subsystem of the
QUEENS framework, translated from queens/models/bmfmc_model.py.

Modelling conventions:
* Python floats are modelled as exact rationals; matrices are lists of row lists.
* External numerical library routines (scipy.stats.norm.pdf, numpy sqrt/exp/log/pi,
  the kernel-density-estimation helpers of queens.utils.pdf_estimation, which are not
  part of the sources) are abstracted into a `NumOps` record of scalar functions.
* The probabilistic-mapping collaborator (an external regression model with
  setup/train/predict) is abstracted into a `ProbMapping` record over an opaque
  internal state type.
* Python exceptions are modelled by `Except PyError`; a raising path returns
  `Except.error`.
-/

namespace BMFMC

/-- A 1-D numpy array of floats, modelled as a list of rationals. -/
abbrev Vec := List ℚ

/-- A 2-D numpy array of floats, modelled as a list of rows. -/
abbrev Mat := List (List ℚ)

/-- The kinds of Python exceptions the embedded code can raise. -/
inductive PyError where
  | valueError (msg : String)
  | typeError (msg : String)
  | runtimeError (msg : String)
  | attributeError (msg : String)
  | ioError (msg : String)
  | indexError (msg : String)
  | notImplementedError (msg : String)
  deriving DecidableEq, Repr

/-- External numerical collaborators used by the BMFMC model: scipy, numpy scalar
functions and the kde helpers of queens.utils.pdf_estimation (not in the sources). -/
structure NumOps where
  /-- numpy sqrt on a scalar -/
  sqrt : ℚ → ℚ
  /-- numpy exp on a scalar -/
  exp : ℚ → ℚ
  /-- numpy log on a scalar -/
  log : ℚ → ℚ
  /-- numpy pi -/
  pi : ℚ
  /-- scipy.stats.norm.pdf x loc scale -/
  normpdf : ℚ → ℚ → ℚ → ℚ
  /-- est.estimate_bandwidth_for_kde data datamin datamax -/
  estimate_bandwidth_for_kde : Vec → ℚ → ℚ → ℚ
  /-- est.estimate_pdf data bandwidth support_points (first component of the result) -/
  estimate_pdf : Mat → ℚ → Mat → Vec

/-- Result dictionary of the probabilistic mapping collaborator's predict. -/
structure PredictOut where
  result : Mat
  variance : Mat

/-- The probabilistic mapping collaborator: a trainable regression model with
internal state of type sigma, exposing setup, train and predict. -/
structure ProbMapping (σ : Type) where
  setup : σ → Mat → Mat → σ
  train : σ → σ
  predict : σ → Mat → String → Bool → PredictOut

/-! ### numpy helpers -/

/-- numpy transpose of a rectangular 2-D array. -/
def npT (m : Mat) : Mat := m.transpose

/-- np.hstack of two 2-D arrays: requires equal row counts, otherwise raises. -/
def np_hstack2 (a b : Mat) : Option Mat :=
  if a.length = b.length then some (List.zipWith (· ++ ·) a b) else none

/-- A numpy array that is either 1-D or 2-D (the distinction matters for atleast_2d). -/
inductive NpArr where
  | one (v : Vec)
  | two (m : Mat)

/-- np.atleast_2d: a 1-D array becomes a single-row 2-D array, a 2-D array is unchanged. -/
def atleast_2d : NpArr → Mat
  | .one v => [v]
  | .two m => m

/-- The value stored in the X_cols attribute: a single integer column index or a
list of column indices (the docstring documents a list). -/
inductive XColsValue where
  | scalar (c : ℕ)
  | colList (cs : List ℕ)

/-- Python fancy indexing X[:, idx]: a scalar index yields a 1-D array, a list of
indices yields a 2-D array with one selected column per list entry. -/
def np_col_select (X : Mat) : XColsValue → NpArr
  | .scalar c => .one (X.map (fun r => r.getD c 0))
  | .colList cs => .two (X.map (fun r => cs.map (fun c => r.getD c 0)))

/-- numpy .size of a 2-D array: total number of entries. -/
def np_size (m : Mat) : ℕ := (m.map List.length).sum

/-- np.sum(mat, axis=0) for a matrix whose rows all have length L. -/
def col_sum (L : ℕ) (m : Mat) : Vec :=
  m.foldr (fun r acc => List.zipWith (· + ·) r acc) (List.replicate L 0)

/-- np.amin of a vector. -/
def np_amin (v : Vec) : ℚ := v.foldl min (v.headD 0)

/-- np.amax of a vector. -/
def np_amax (v : Vec) : ℚ := v.foldl max (v.headD 0)

/-! ### BmfmcInterface (probabilistic mapping interface) -/

namespace BmfmcInterface

/-- BmfmcInterface.evaluate: predict mean and (co)variance on the probabilistic
mapping; raises a RuntimeError when the mapping is unset and a
NotImplementedError when a gradient is requested. -/
def evaluate (ops : ProbMapping σ) (probabilistic_mapping : Option σ) (samples : Mat)
    (support : String := "y") (full_cov : Bool := false) (gradient_bool : Bool := false) :
    Except PyError (Mat × Mat) :=
  match probabilistic_mapping with
  | none =>
      .error (.runtimeError
        "The probabilistic mapping has not been properly initialized, cannot continue!")
  | some s =>
      if gradient_bool then
        .error (.notImplementedError
          "The gradient response is not implemented for this interface. Please set gradient_bool=False. Abort...")
      else
        let out := ops.predict s samples support full_cov
        .ok (out.result, out.variance)

/-- BmfmcInterface.build_approximation: calls setup and train on the underlying
mapping. There is no initialization check: on an unset (None) mapping, Python
raises an AttributeError at the setup call. -/
def build_approximation (ops : ProbMapping σ) (probabilistic_mapping : Option σ)
    (Z_LF_train Y_HF_train : Mat) : Except PyError σ :=
  match probabilistic_mapping with
  | none => .error (.attributeError "NoneType object has no attribute setup")
  | some s => .ok (ops.train (ops.setup s Z_LF_train Y_HF_train))

end BmfmcInterface

/-! ### Density statistics (calculate_p_yhf_mean / calculate_p_yhf_var) -/

/-- Core of BMFMCModel.calculate_p_yhf_mean: pdf_mat[i][j] is the Gaussian pdf at
support point j with mean m_f_mc[i] and scale sqrt(var_y_mc[i]); the result is
the column sums scaled by 1/m_f_mc.size. -/
def calculate_p_yhf_mean (ops : NumOps) (y_pdf_support : Vec) (m_f_mc var_y_mc : Mat) : Vec :=
  let pdf_mat : Mat :=
    (List.zip m_f_mc var_y_mc).map (fun mv =>
      y_pdf_support.map (fun y => ops.normpdf y (mv.1.headD 0) (ops.sqrt (mv.2.headD 0))))
  let pyhf_mean_vec := col_sum y_pdf_support.length pdf_mat
  pyhf_mean_vec.map (fun s => 1 / (np_size m_f_mc : ℚ) * s)

/-- One pair's clipped log-density over the diagonal support grid, exactly as the
body of the double loop of calculate_p_yhf_var computes it: the determinant guard
substitutes det_sigma = 1e-6 and shrinks the covariance by 5 percent when the 2x2
determinant is negative, and the exponent is clipped at 40. -/
def pair_args (ops : NumOps) (y_pdf_support : Vec)
    (mean1 mean2 var1 var2 covariance0 : ℚ) : Vec :=
  let det0 := var1 * var2 - covariance0 ^ 2
  let det_sigma := if det0 < 0 then 1 / 1000000 else det0
  let covariance := if det0 < 0 then 95 / 100 * covariance0 else covariance0
  y_pdf_support.map (fun y =>
    let d1 := y - mean1
    let d2 := y - mean2
    let a1 := d1 * (1 / det_sigma * var2) + d2 * (1 / det_sigma * -covariance)
    let a2 := d1 * (1 / det_sigma * -covariance) + d2 * (1 / det_sigma * var1)
    let b := a1 * d1 + a2 * d2
    let c := ops.sqrt (4 * ops.pi ^ 2 * det_sigma)
    let args := -(1 / 2) * b + ops.log (1 / c)
    if args > 40 then 40 else args)

/-- The unguarded bivariate log-density formula of the loop body, with the
determinant and the off-diagonal covariance supplied explicitly. -/
def pair_args_with (ops : NumOps) (y_pdf_support : Vec)
    (mean1 mean2 var1 var2 covariance det_sigma : ℚ) : Vec :=
  y_pdf_support.map (fun y =>
    let d1 := y - mean1
    let d2 := y - mean2
    let a1 := d1 * (1 / det_sigma * var2) + d2 * (1 / det_sigma * -covariance)
    let a2 := d1 * (1 / det_sigma * -covariance) + d2 * (1 / det_sigma * var1)
    let b := a1 * d1 + a2 * d2
    let c := ops.sqrt (4 * ops.pi ^ 2 * det_sigma)
    let args := -(1 / 2) * b + ops.log (1 / c)
    if args > 40 then 40 else args)

/-- State carried through the double loop of calculate_p_yhf_var. -/
structure VarLoopState where
  i : ℕ
  yhf_pdf_grid : Vec
  p_yhf_var : Option Vec

/-- One inner-loop iteration of calculate_p_yhf_var. The source enumerates the
suffix f_mean_pred[num1+1:] (so the second member of the pair is the element at
global index num1 + 1 + num2e) but then reassigns num2 = num1 + num2 before
reading the covariance, so the covariance entry read is k_post[num1][num1 + num2e]. -/
def var_inner_step (ops : NumOps) (y_pdf_support : Vec) (f_mean_pred yhf_var_pred : Vec)
    (k_post : Mat) (p_yhf_mean : Vec) (num1 : ℕ) (s : VarLoopState) (num2e : ℕ) :
    VarLoopState :=
  let num2 := num1 + num2e
  let mean1 := f_mean_pred.getD num1 0
  let var1 := yhf_var_pred.getD num1 0
  let mean2 := f_mean_pred.getD (num1 + 1 + num2e) 0
  let var2 := yhf_var_pred.getD (num1 + 1 + num2e) 0
  let covariance := (k_post.getD num1 []).getD num2 0
  let contrib := (pair_args ops y_pdf_support mean1 mean2 var1 var2 covariance).map ops.exp
  let grid := List.zipWith (· + ·) s.yhf_pdf_grid contrib
  let i := s.i + 1
  { i := i
    yhf_pdf_grid := grid
    p_yhf_var :=
      some (List.zipWith (fun g pm => 1 / ((i : ℚ) - 1) * g - 9995 / 10000 * pm ^ 2)
        grid p_yhf_mean) }

/-- Core of BMFMCModel.calculate_p_yhf_var: the double loop over ordered index
pairs, started with i = 1 and a zero grid; p_yhf_var keeps its previous value
when no pair is processed (the assignment lives inside the inner loop). -/
def calculate_p_yhf_var_core (ops : NumOps) (y_pdf_support : Vec)
    (f_mean_pred yhf_var_pred : Vec) (k_post : Mat) (p_yhf_mean : Vec)
    (p_yhf_var_old : Option Vec) : Option Vec :=
  let N := f_mean_pred.length
  let final :=
    (List.range N).foldl
      (fun s num1 =>
        (List.range (N - (num1 + 1))).foldl
          (var_inner_step ops y_pdf_support f_mean_pred yhf_var_pred k_post p_yhf_mean num1)
          s)
      { i := 1, yhf_pdf_grid := List.replicate y_pdf_support.length 0,
        p_yhf_var := p_yhf_var_old }
  final.p_yhf_var

/-- Definition following the words of claim C2: the accumulated sum, over all
unordered pairs i < j, of the (clipped, guarded) bivariate-normal density of the
pair of predictions -- using the covariance entry k_post[i][j] of that pair --
divided by the pair count, minus 0.9995 times the squared mean density. -/
def p_yhf_var_claimed (ops : NumOps) (y_pdf_support : Vec)
    (f_mean_pred yhf_var_pred : Vec) (k_post : Mat) (p_yhf_mean : Vec) : Vec :=
  let N := f_mean_pred.length
  let pairs := (List.range N).flatMap (fun i =>
    ((List.range N).filter (fun j => i < j)).map (fun j => (i, j)))
  let total := pairs.foldl
    (fun acc p =>
      List.zipWith (· + ·) acc
        ((pair_args ops y_pdf_support (f_mean_pred.getD p.1 0) (f_mean_pred.getD p.2 0)
            (yhf_var_pred.getD p.1 0) (yhf_var_pred.getD p.2 0)
            ((k_post.getD p.1 []).getD p.2 0)).map ops.exp))
    (List.replicate y_pdf_support.length 0)
  List.zipWith (fun g pm => 1 / (pairs.length : ℚ) * g - 9995 / 10000 * pm ^ 2)
    total p_yhf_mean

/-! ### Random-field truncation (get_random_fields_and_truncated_basis) -/

/-- The first index whose entry meets the threshold, as computed by the list
comprehension with trailing [0] in get_random_fields_and_truncated_basis;
none models the IndexError raised when no entry qualifies. -/
def first_index_meeting (explained_var : ℚ) : Vec → Option ℕ
  | [] => none
  | ev :: rest =>
      if explained_var ≤ ev then some 0
      else (first_index_meeting explained_var rest).map (· + 1)

/-- The truncated basis retained for a random field: the source slices
basis[0:idx_truncation] where idx_truncation is the first index whose
explained-variance entry meets the threshold. -/
def truncated_basis (basis : Mat) (eigenvals : Vec) (explained_var : ℚ) : Option Mat :=
  (first_index_meeting explained_var eigenvals).map (fun idx => basis.take idx)

/-- Definition following the words of claim C3: reading the entries as cumulative
explained-variance percentages, the smallest prefix of eigenmodes whose cumulative
explained variance meets the threshold is the one ending at the first entry that
meets it, hence has length (first qualifying index) + 1. -/
def claimed_truncation_len (eigenvals : Vec) (explained_var : ℚ) : Option ℕ :=
  (first_index_meeting explained_var eigenvals).map (· + 1)

/-! ### The BMFMC orchestrator state -/

/-- The mutable instance fields of BMFMCModel that participate in the evaluate
pipeline. Nullable attributes are Options (initialized to None in the
constructor); the probabilistic mapping owned by the BmfmcInterface is the
opaque collaborator state. -/
structure BMFMCModel (σ : Type) where
  features_config : String
  X_cols : Option XColsValue
  num_features : Option Int
  high_fidelity_model : Option (Mat → Mat)
  X_train : Option Mat
  Y_HF_train : Option Mat
  Y_LFs_train : Option Mat
  X_mc : Option Mat
  Y_LFs_mc : Option Mat
  Y_HF_mc : Option Vec
  gammas_ext_mc : Option Mat
  gammas_ext_train : Option Mat
  Z_train : Option Mat
  Z_mc : Option Mat
  m_f_mc : Option Mat
  var_y_mc : Option Mat
  p_yhf_mean : Option Vec
  p_yhf_var : Option Vec
  predictive_var_bool : Bool
  p_yhf_mc : Option Vec
  p_ylf_mc : Option Vec
  no_features_comparison_bool : Bool
  f_mean_train : Option Mat
  y_pdf_support : Vec
  training_indices : Option (List ℕ)
  probabilistic_mapping : Option σ

/-- The output dictionary returned by BMFMCModel.evaluate. -/
structure BMFMCOutput where
  Z_mc : Option Mat
  m_f_mc : Option Mat
  var_y_mc : Option Mat
  y_pdf_support : Vec
  p_yhf_mean : Option Vec
  p_yhf_var : Option Vec
  p_yhf_mean_BMFMC : Option Vec
  p_yhf_var_BMFMC : Option Vec
  p_ylf_mc : Option Vec
  p_yhf_mc : Option Vec
  Z_train : Option Mat
  X_train : Option Mat
  Y_HF_train : Option Mat

namespace BMFMCModel

variable {σ : Type}

/-- BMFMCModel.get_hf_training_data: either simulate the HF model on X_train, or
look Y_HF_train up in Y_HF_mc at the X_mc rows that exactly equal the X_train
rows; missing X_train is a ValueError, neither or both HF sources a RuntimeError,
and a failed row match an IndexError. -/
def get_hf_training_data (st : BMFMCModel σ) : Except PyError (BMFMCModel σ) :=
  match st.X_train with
  | none =>
      .error (.valueError
        "The training input X_train cannot be None! The training inputs should have been calculated in the iterator! Abort...")
  | some xtr =>
    match st.high_fidelity_model, st.Y_HF_mc with
    | some hf, none => .ok { st with Y_HF_train := some (hf xtr) }
    | none, some yhfmc =>
        match st.X_mc with
        | none => .error (.indexError "index 0 is out of bounds")
        | some xmc =>
            match xtr.mapM (fun row => xmc.findIdx? (fun r => decide (r = row))) with
            | none => .error (.indexError "index 0 is out of bounds")
            | some index_rows =>
                .ok { st with
                  Y_HF_train := some (index_rows.map (fun j => [yhfmc.getD j 0])) }
    | _, _ =>
        .error (.runtimeError
          "Please make sure to provide either a pickle file with high-fidelity Monte-Carlo data or an appropriate high-fidelity model to compute the high-fidelity training data! Abort...")

/-- The descriptive ValueError message for an invalid opt_features feature count. -/
def num_features_error_msg (n : Int) : String :=
  "You specified " ++ toString n ++
    " features, which is an invalid value! Please only specify integer values greater than zero! Abort..."

/-- BMFMCModel.update_probabilistic_mapping_with_features: select the demanded
number of extended features, rebuild Z_mc and Z_train, retrain the mapping and
re-predict on Z_mc and Z_train. -/
def update_probabilistic_mapping_with_features (pmOps : ProbMapping σ)
    (st : BMFMCModel σ) : Except PyError (BMFMCModel σ) :=
  match st.gammas_ext_mc, st.Y_LFs_mc, st.num_features with
  | some gext, some ylmc, some n =>
    let gamma_mc := gext.map (fun r => r.take n.toNat)
    match np_hstack2 ylmc gamma_mc with
    | none => .error (.valueError "all the input array dimensions must match exactly")
    | some zmc =>
      match st.training_indices with
      | none => .error (.valueError "The training indices are still set to None! Abort...")
      | some tidx =>
        let ztr := tidx.map (fun i => zmc.getD i [])
        match st.Y_HF_train with
        | none => .error (.typeError "NoneType passed to build_approximation")
        | some yhftr =>
          match BmfmcInterface.build_approximation pmOps st.probabilistic_mapping ztr yhftr with
          | .error e => .error e
          | .ok s2 =>
            match BmfmcInterface.evaluate pmOps (some s2) (npT zmc) "y" false false with
            | .error e => .error e
            | .ok (m, v) =>
              match BmfmcInterface.evaluate pmOps (some s2) (npT ztr) "y" false false with
              | .error e => .error e
              | .ok (ftr, _) =>
                .ok { st with
                      Z_mc := some zmc
                      Z_train := some ztr
                      probabilistic_mapping := some s2
                      m_f_mc := some m
                      var_y_mc := some v
                      f_mean_train := some ftr }
  | _, _, _ => .error (.typeError "NoneType is not subscriptable")

/-- BMFMCModel.set_feature_strategy: dispatch on features_config. For
man_features the informative features are atleast_2d(X[:, X_cols]).T; for
opt_features a feature count below one raises the descriptive ValueError while a
None count makes the comparison num_features < 1 itself raise a TypeError; for
no_features the Z matrices are the Y_LF matrices themselves; any other string
raises an IOError. -/
def set_feature_strategy (pmOps : ProbMapping σ) (st : BMFMCModel σ) :
    Except PyError (BMFMCModel σ) :=
  if st.features_config = "man_features" then
    match st.X_cols, st.X_train, st.X_mc, st.Y_LFs_train, st.Y_LFs_mc with
    | some idx_vec, some xtr, some xmc, some yltr, some ylmc =>
      let g_train := npT (atleast_2d (np_col_select xtr idx_vec))
      let g_mc := npT (atleast_2d (np_col_select xmc idx_vec))
      match np_hstack2 yltr g_train, np_hstack2 ylmc g_mc with
      | some ztr, some zmc =>
          .ok { st with
                gammas_ext_train := some g_train
                gammas_ext_mc := some g_mc
                Z_train := some ztr
                Z_mc := some zmc }
      | _, _ => .error (.valueError "all the input array dimensions must match exactly")
    | _, _, _, _, _ => .error (.typeError "NoneType is not subscriptable")
  else if st.features_config = "opt_features" then
    match st.num_features with
    | none => .error (.typeError "unorderable comparison NoneType < int")
    | some n =>
        if n < 1 then .error (.valueError (num_features_error_msg n))
        else update_probabilistic_mapping_with_features pmOps st
  else if st.features_config = "no_features" then
    .ok { st with Z_train := st.Y_LFs_train, Z_mc := st.Y_LFs_mc }
  else
    .error (.ioError "Feature space method specified in input file is unknown!")

/-- BMFMCModel.build_approximation: obtain the HF training data, then (with
features) run the feature strategy and train on Z_train, or (without features)
train directly on Y_LFs_train. -/
def build_approximation (pmOps : ProbMapping σ) (st : BMFMCModel σ)
    (approx_case : Bool) : Except PyError (BMFMCModel σ) :=
  match get_hf_training_data st with
  | .error e => .error e
  | .ok st1 =>
    if approx_case then
      match set_feature_strategy pmOps st1 with
      | .error e => .error e
      | .ok st2 =>
        match st2.Z_train, st2.Y_HF_train with
        | some ztr, some yhftr =>
          match BmfmcInterface.build_approximation pmOps st2.probabilistic_mapping ztr yhftr with
          | .error e => .error e
          | .ok s2 => .ok { st2 with probabilistic_mapping := some s2 }
        | _, _ => .error (.typeError "NoneType passed to build_approximation")
    else
      match st1.Y_LFs_train, st1.Y_HF_train with
      | some yltr, some yhftr =>
        match BmfmcInterface.build_approximation pmOps st1.probabilistic_mapping yltr yhftr with
        | .error e => .error e
        | .ok s2 => .ok { st1 with probabilistic_mapping := some s2 }
      | _, _ => .error (.typeError "NoneType passed to build_approximation")

/-- BMFMCModel.calculate_p_yhf_mean as a state transformer. -/
def calculate_p_yhf_mean_m (ops : NumOps) (st : BMFMCModel σ) :
    Except PyError (BMFMCModel σ) :=
  match st.m_f_mc, st.var_y_mc with
  | some m, some v =>
      .ok { st with p_yhf_mean := some (calculate_p_yhf_mean ops st.y_pdf_support m v) }
  | _, _ => .error (.typeError "unsupported operand type NoneType")

/-- BMFMCModel.calculate_p_yhf_var as a state transformer: the posterior
covariance is requested from the interface without full_cov=True (the source
omits the flag, so the default False applies). -/
def calculate_p_yhf_var_m (ops : NumOps) (pmOps : ProbMapping σ) (st : BMFMCModel σ) :
    Except PyError (BMFMCModel σ) :=
  match st.Z_mc with
  | none => .error (.attributeError "NoneType object has no attribute T")
  | some zmc =>
    match BmfmcInterface.evaluate pmOps st.probabilistic_mapping (npT zmc) "y" false false with
    | .error e => .error e
    | .ok (_, k_post) =>
      match st.m_f_mc, st.var_y_mc, st.p_yhf_mean with
      | some m, some v, some pm =>
          .ok { st with
                p_yhf_var :=
                  calculate_p_yhf_var_core ops st.y_pdf_support
                    (m.map (fun r => r.headD 0))
                    (v.map (fun r => r.headD 0)) k_post pm st.p_yhf_var }
      | _, _, _ => .error (.typeError "unsupported operand type NoneType")

/-- BMFMCModel.compute_pyhf_statistics: the mean density always, the variance of
the density only when predictive_var_bool is set (otherwise p_yhf_var is None). -/
def compute_pyhf_statistics (ops : NumOps) (pmOps : ProbMapping σ) (st : BMFMCModel σ) :
    Except PyError (BMFMCModel σ) :=
  match calculate_p_yhf_mean_m ops st with
  | .error e => .error e
  | .ok st1 =>
      if st1.predictive_var_bool then calculate_p_yhf_var_m ops pmOps st1
      else .ok { st1 with p_yhf_var := none }

/-- BMFMCModel.run_BMFMC: the generalized BMFMC routine with features. -/
def run_BMFMC (ops : NumOps) (pmOps : ProbMapping σ) (st : BMFMCModel σ) :
    Except PyError (BMFMCModel σ) :=
  match build_approximation pmOps st true with
  | .error e => .error e
  | .ok st1 =>
    match st1.Z_mc, st1.Z_train with
    | some zmc, some ztr =>
      match BmfmcInterface.evaluate pmOps st1.probabilistic_mapping (npT zmc) "y" false false with
      | .error e => .error e
      | .ok (m, v) =>
        match BmfmcInterface.evaluate pmOps st1.probabilistic_mapping (npT ztr) "y" false false with
        | .error e => .error e
        | .ok (ftr, _) =>
            compute_pyhf_statistics ops pmOps
              { st1 with m_f_mc := some m, var_y_mc := some v, f_mean_train := some ftr }
    | _, _ => .error (.attributeError "NoneType object has no attribute T")

/-- BMFMCModel.run_BMFMC_without_features: the comparison run that uses Y_LFs
directly as features; it returns the densities read back from the instance
fields it has just written. -/
def run_BMFMC_without_features (ops : NumOps) (pmOps : ProbMapping σ) (st : BMFMCModel σ) :
    Except PyError ((Option Vec × Option Vec) × BMFMCModel σ) :=
  match build_approximation pmOps st false with
  | .error e => .error e
  | .ok st1 =>
    match st1.Y_LFs_mc, st1.Y_LFs_train with
    | some ylmc, some yltr =>
      match BmfmcInterface.evaluate pmOps st1.probabilistic_mapping (npT ylmc) "y" false false with
      | .error e => .error e
      | .ok (m, v) =>
        match BmfmcInterface.evaluate pmOps st1.probabilistic_mapping (npT yltr) "y" false false with
        | .error e => .error e
        | .ok (ftr, _) =>
          match compute_pyhf_statistics ops pmOps
              { st1 with m_f_mc := some m, var_y_mc := some v, f_mean_train := some ftr } with
          | .error e => .error e
          | .ok st2 => .ok ((st2.p_yhf_mean, st2.p_yhf_var), st2)
    | _, _ => .error (.attributeError "NoneType object has no attribute T")

/-- BMFMCModel.compute_pymc_reference: bandwidth from the LF Monte-Carlo output,
then kernel density estimates of the HF reference (when present) and of the LF
output (when there is a single LF model). -/
def compute_pymc_reference (ops : NumOps) (st : BMFMCModel σ) :
    Except PyError (BMFMCModel σ) :=
  match st.Y_LFs_mc, st.Y_LFs_train with
  | some ylmc, some yltr =>
    let col0 := ylmc.map (fun r => r.getD 0 0)
    let bandwidth_lfmc := ops.estimate_bandwidth_for_kde col0 (np_amin col0) (np_amax col0)
    let st1 :=
      match st.Y_HF_mc with
      | some yhfmc =>
          { st with
            p_yhf_mc :=
              some (ops.estimate_pdf [yhfmc] bandwidth_lfmc [st.y_pdf_support]) }
      | none => st
    if (yltr.headD []).length < 2 then
      .ok { st1 with
            p_ylf_mc :=
              some (ops.estimate_pdf (npT ylmc) bandwidth_lfmc [st.y_pdf_support]) }
    else .ok st1
  | _, _ => .error (.typeError "NoneType is not subscriptable")

/-- BMFMCModel.evaluate: the samples argument is accepted but never used; the
routine computes the reference kde, optionally the feature-free comparison run,
then the generalized BMFMC run, and gathers the output dictionary. -/
def evaluate (ops : NumOps) (pmOps : ProbMapping σ) (st : BMFMCModel σ) {α : Type}
    (samples : α) : Except PyError (BMFMCOutput × BMFMCModel σ) :=
  match compute_pymc_reference ops st with
  | .error e => .error e
  | .ok st1 =>
    match (if st1.no_features_comparison_bool then run_BMFMC_without_features ops pmOps st1
           else .ok ((none, none), st1)) with
    | .error e => .error e
    | .ok (cmp, st2) =>
      match run_BMFMC ops pmOps st2 with
      | .error e => .error e
      | .ok st3 =>
          .ok ({ Z_mc := st3.Z_mc, m_f_mc := st3.m_f_mc, var_y_mc := st3.var_y_mc,
                 y_pdf_support := st3.y_pdf_support, p_yhf_mean := st3.p_yhf_mean,
                 p_yhf_var := st3.p_yhf_var, p_yhf_mean_BMFMC := cmp.1,
                 p_yhf_var_BMFMC := cmp.2, p_ylf_mc := st3.p_ylf_mc,
                 p_yhf_mc := st3.p_yhf_mc, Z_train := st3.Z_train,
                 X_train := st3.X_train, Y_HF_train := st3.Y_HF_train }, st3)

end BMFMCModel

/-! ### Concrete collaborators and states used to evaluate the embedding -/

/-- A concrete instantiation of the external numeric collaborators, used to
evaluate the embedded code on concrete inputs. -/
def trivNumOps : NumOps :=
  { sqrt := fun x => x
    exp := fun x => x
    log := fun x => x
    pi := 1
    normpdf := fun _ _ _ => 1
    estimate_bandwidth_for_kde := fun _ _ _ => 1
    estimate_pdf := fun _ _ _ => [7] }

/-- A numeric collaborator with a non-constant pdf, for evaluating the mean
density on concrete inputs. -/
def affineNumOps : NumOps :=
  { sqrt := fun x => x
    exp := fun x => x
    log := fun x => x
    pi := 1
    normpdf := fun y l s => y + 2 * l + 3 * s
    estimate_bandwidth_for_kde := fun _ _ _ => 1
    estimate_pdf := fun _ _ _ => [7] }

/-- A concrete probabilistic mapping collaborator with trivial internal state. -/
def trivPmOps : ProbMapping Unit :=
  { setup := fun s _ _ => s
    train := fun s => s
    predict := fun _ _ _ _ => { result := [[2]], variance := [[3]] } }

/-- A constant high-fidelity model collaborator. -/
def hfConstModel : Mat → Mat := fun _ => [[5]]

/-- A small fully loaded orchestrator state: one training row, scalar LF output,
an HF simulation model as the training-data source and a single support point. -/
def baseState : BMFMCModel Unit :=
  { features_config := "no_features"
    X_cols := none
    num_features := none
    high_fidelity_model := some hfConstModel
    X_train := some [[0]]
    Y_HF_train := none
    Y_LFs_train := some [[1]]
    X_mc := some [[0]]
    Y_LFs_mc := some [[1]]
    Y_HF_mc := none
    gammas_ext_mc := none
    gammas_ext_train := none
    Z_train := none
    Z_mc := none
    m_f_mc := none
    var_y_mc := none
    p_yhf_mean := none
    p_yhf_var := none
    predictive_var_bool := false
    p_yhf_mc := none
    p_ylf_mc := none
    no_features_comparison_bool := false
    f_mean_train := none
    y_pdf_support := [0]
    training_indices := none
    probabilistic_mapping := some () }

/-- The state reached from baseState by run_BMFMC_without_features. -/
def afterNoFeaturesRun : BMFMCModel Unit :=
  { baseState with
    Y_HF_train := some [[5]]
    probabilistic_mapping := some ()
    m_f_mc := some [[2]]
    var_y_mc := some [[3]]
    f_mean_train := some [[2]]
    p_yhf_mean := some (calculate_p_yhf_mean trivNumOps [0] [[2]] [[3]])
    p_yhf_var := none }

/-- baseState configured for opt_features with a missing feature count. -/
def optNoneState : BMFMCModel Unit :=
  { baseState with features_config := "opt_features", num_features := none }

/-- baseState configured for opt_features with a zero feature count. -/
def optZeroState : BMFMCModel Unit :=
  { baseState with features_config := "opt_features", num_features := some 0 }

/-- A man_features state whose X_cols is a list selecting one column of a
two-row input matrix, as the X_cols docstring describes. -/
def manFeaturesListState : BMFMCModel Unit :=
  { baseState with
    features_config := "man_features"
    X_cols := some (XColsValue.colList [0])
    X_train := some [[1], [2]]
    X_mc := some [[1], [2]]
    Y_LFs_train := some [[10], [20]]
    Y_LFs_mc := some [[10], [20]] }

/-- The claim that a call raises the ValueError class of configuration errors. -/
def raises_config_value_error {α : Type} (r : Except PyError α) : Prop :=
  ∃ msg, r = Except.error (PyError.valueError msg)

/-! ### Claim C10 -/

/-- C10: the samples argument of BMFMCModel.evaluate has no influence on the
computation: two calls from identical model state with arbitrary (even
differently typed) argument values return identical output dictionaries and
identical final states. -/
theorem evaluate_ignores_samples_argument (ops : NumOps) (pmOps : ProbMapping σ)
    (st : BMFMCModel σ) {α β : Type} (s1 : α) (s2 : β) :
    BMFMCModel.evaluate ops pmOps st s1 = BMFMCModel.evaluate ops pmOps st s2 := rfl

/-! ### Claim C4 -/

/-- C4, counterexample: calling BmfmcInterface.build_approximation with an unset
(None) probabilistic mapping does not raise the runtime error with the message
about improper initialization; it fails with an AttributeError instead. -/
theorem build_approximation_unset_mapping_counterexample :
    BmfmcInterface.build_approximation trivPmOps (none : Option Unit) [[1]] [[2]]
        = Except.error (PyError.attributeError "NoneType object has no attribute setup")
    ∧ BmfmcInterface.build_approximation trivPmOps (none : Option Unit) [[1]] [[2]]
        ≠ Except.error (PyError.runtimeError
            "The probabilistic mapping has not been properly initialized, cannot continue!") :=
  ⟨rfl, by intro hcontra; simp [BmfmcInterface.build_approximation] at hcontra⟩

/-- C4, amended: the initialization check lives in BmfmcInterface.evaluate, which
raises the runtime error with the documented message whenever the underlying
mapping is unset; build_approximation performs no such check and fails with an
AttributeError on an unset mapping. -/
theorem initialization_check_is_in_evaluate_not_build (ops : ProbMapping σ)
    (samples : Mat) (support : String) (full_cov gradient_bool : Bool) (Z Y : Mat) :
    BmfmcInterface.evaluate ops (none : Option σ) samples support full_cov gradient_bool
        = Except.error (PyError.runtimeError
            "The probabilistic mapping has not been properly initialized, cannot continue!")
    ∧ BmfmcInterface.build_approximation ops (none : Option σ) Z Y
        = Except.error (PyError.attributeError "NoneType object has no attribute setup") :=
  ⟨rfl, rfl⟩

/-! ### Claim C7 -/

/-- C7: with features_config = "no_features", set_feature_strategy sets Z_train
to exactly Y_LFs_train and Z_mc to exactly Y_LFs_mc and changes nothing else. -/
theorem set_feature_strategy_no_features_identity (pmOps : ProbMapping σ)
    (st : BMFMCModel σ) (h : st.features_config = "no_features") :
    BMFMCModel.set_feature_strategy pmOps st
      = Except.ok { st with Z_train := st.Y_LFs_train, Z_mc := st.Y_LFs_mc } := by
  unfold BMFMCModel.set_feature_strategy
  rw [h]
  simp

/-- Witness for C7 at a concrete state. -/
theorem set_feature_strategy_no_features_identity_witness :
    BMFMCModel.set_feature_strategy trivPmOps baseState
      = Except.ok { baseState with Z_train := some [[1]], Z_mc := some [[1]] } :=
  set_feature_strategy_no_features_identity trivPmOps baseState rfl

/-! ### Claim C9 -/

/-- C9, counterexample: with features_config = "opt_features" and num_features
None, set_feature_strategy does not raise the descriptive configuration
ValueError: the comparison None < 1 raises a TypeError. -/
theorem opt_features_none_counterexample :
    BMFMCModel.set_feature_strategy trivPmOps optNoneState
        = Except.error (PyError.typeError "unorderable comparison NoneType < int")
    ∧ ¬ raises_config_value_error (BMFMCModel.set_feature_strategy trivPmOps optNoneState) := by
  refine ⟨rfl, ?_⟩
  rintro ⟨msg, hm⟩
  have h0 : BMFMCModel.set_feature_strategy trivPmOps optNoneState
      = Except.error (PyError.typeError "unorderable comparison NoneType < int") := rfl
  rw [h0] at hm
  simp at hm

/-- C9, amended: for opt_features the call aborts before any feature matrix is
built or any mapping is trained in both invalid cases, but with different
errors: an integer feature count below one raises the descriptive ValueError,
while a None feature count makes the comparison itself raise a TypeError. -/
theorem opt_features_invalid_num_features_aborts (pmOps : ProbMapping σ)
    (st : BMFMCModel σ) (hcfg : st.features_config = "opt_features") :
    (st.num_features = none →
        BMFMCModel.set_feature_strategy pmOps st
          = Except.error (PyError.typeError "unorderable comparison NoneType < int"))
    ∧ (∀ n : Int, st.num_features = some n → n < 1 →
        BMFMCModel.set_feature_strategy pmOps st
          = Except.error (PyError.valueError (BMFMCModel.num_features_error_msg n))) := by
  constructor
  · intro hn
    unfold BMFMCModel.set_feature_strategy
    rw [hcfg, hn]
    rfl
  · intro n hn hlt
    unfold BMFMCModel.set_feature_strategy
    rw [hcfg, hn]
    simp [hlt]

/-- Witness for C9 at concrete states. -/
theorem opt_features_invalid_num_features_aborts_witness :
    BMFMCModel.set_feature_strategy trivPmOps optNoneState
        = Except.error (PyError.typeError "unorderable comparison NoneType < int")
    ∧ BMFMCModel.set_feature_strategy trivPmOps optZeroState
        = Except.error (PyError.valueError (BMFMCModel.num_features_error_msg 0)) :=
  ⟨(opt_features_invalid_num_features_aborts trivPmOps optNoneState rfl).1 rfl,
   (opt_features_invalid_num_features_aborts trivPmOps optZeroState rfl).2 0 rfl (by decide)⟩

/-! ### Claim C5 -/

/-- C5: on a man_features state whose X_cols is a list selecting k = 1 column of
a two-row input, set_feature_strategy raises a dimension-mismatch ValueError
instead of assembling Z_train with Y_LFs_train.shape[1] + 1 columns: the
transpose in atleast_2d(X[:, X_cols]).T turns the (n, k) selection into a
(k, n) array that cannot be stacked next to the (n, 1) LF output. -/
theorem man_features_list_X_cols_raises_dimension_mismatch :
    BMFMCModel.set_feature_strategy trivPmOps manFeaturesListState
      = Except.error (PyError.valueError "all the input array dimensions must match exactly") :=
  rfl

/-! ### Claim C8 -/

/-- C8: in the pairwise loop, when the 2x2 determinant var1 * var2 -
covariance^2 is negative, the loop body computes exactly the unguarded density
formula with det_sigma substituted by 1e-6 and the covariance multiplied by
0.95, and continues normally (the contribution is a total function of the
inputs; no error is raised). -/
theorem det_sigma_guard_substitutes_and_continues (ops : NumOps) (y_pdf_support : Vec)
    (mean1 mean2 var1 var2 covariance : ℚ) (h : var1 * var2 - covariance ^ 2 < 0) :
    pair_args ops y_pdf_support mean1 mean2 var1 var2 covariance
      = pair_args_with ops y_pdf_support mean1 mean2 var1 var2
          (95 / 100 * covariance) (1 / 1000000) := by
  unfold pair_args pair_args_with
  simp only [if_pos h]

/-- Witness for C8 at a concrete non-positive-definite pair. -/
theorem det_sigma_guard_witness :
    ((1 : ℚ) * 1 - 2 ^ 2 < 0)
    ∧ pair_args trivNumOps [3] 0 0 1 1 2
        = pair_args_with trivNumOps [3] 0 0 1 1 (95 / 100 * 2) (1 / 1000000) :=
  ⟨by norm_num, det_sigma_guard_substitutes_and_continues trivNumOps [3] 0 0 1 1 2 (by norm_num)⟩

/-! ### Claim C2 -/

/-- C2: the pairwise loop reads the covariance entry k_post[i][j - 1] for the
pair (i, j) (the source reassigns num2 = num1 + num2 over the enumerate of the
suffix starting at num1 + 1). On two Monte-Carlo points the result is therefore
independent of the actual pair covariance entry k_post[0][1] (first conjunct),
it equals the density built from the diagonal entry k_post[0][0] (second
conjunct), and it differs from the value prescribed by the claim, which uses
the pair covariance entry (third conjunct). -/
theorem calculate_p_yhf_var_ignores_pair_covariance_entry :
    calculate_p_yhf_var_core trivNumOps [0] [0, 0] [1, 1] [[0, 99], [99, 1]] [0] none
        = calculate_p_yhf_var_core trivNumOps [0] [0, 0] [1, 1] [[0, 0], [0, 1]] [0] none
    ∧ calculate_p_yhf_var_core trivNumOps [0] [0, 0] [1, 1] [[0, 99], [99, 1]] [0] none
        = some [1 / 4]
    ∧ p_yhf_var_claimed trivNumOps [0] [0, 0] [1, 1] [[0, 99], [99, 1]] [0] = [40] := by
  have hr2 : List.range 2 = [0, 1] := rfl
  have hr1 : List.range 1 = [0] := rfl
  have hr0 : List.range 0 = [] := rfl
  refine ⟨?_, ?_, ?_⟩ <;>
    norm_num [calculate_p_yhf_var_core, var_inner_step, pair_args, p_yhf_var_claimed,
      trivNumOps, hr2, hr1, hr0, List.getD_cons_zero, List.getD_cons_succ,
      List.replicate_succ, List.filter]

/-! ### Claim C3 -/

/-- C3, counterexample: with a single eigenmode whose cumulative explained
variance 96 already meets the threshold 95, the code retains the empty basis
(the slice basis[0:idx] excludes the first qualifying mode), while the smallest
prefix meeting the threshold has one mode. -/
theorem truncated_basis_counterexample :
    truncated_basis [[1, 0]] [96] 95 = some []
    ∧ claimed_truncation_len [96] 95 = some 1
    ∧ truncated_basis [[1, 0]] [96] 95
        ≠ (claimed_truncation_len [96] 95).map (fun k => List.take k [[1, 0]]) := by
  refine ⟨?_, ?_, ?_⟩ <;>
    norm_num [truncated_basis, claimed_truncation_len, first_index_meeting]

/-- Every entry of a list before the first entry meeting the threshold is
strictly below the threshold. -/
theorem first_index_meeting_take_lt (t : ℚ) :
    ∀ (l : Vec) (i : ℕ), first_index_meeting t l = some i → ∀ ev ∈ l.take i, ev < t := by
  intro l
  induction l with
  | nil => intro i h; simp [first_index_meeting] at h
  | cons a rest ih =>
      intro i h ev hev
      unfold first_index_meeting at h
      by_cases hta : t ≤ a
      · rw [if_pos hta] at h
        injection h with h
        subst h
        simp at hev
      · rw [if_neg hta] at h
        cases hrec : first_index_meeting t rest with
        | none => rw [hrec] at h; simp at h
        | some k =>
            rw [hrec] at h
            have hik : i = k + 1 := by
              cases h
              rfl
            subst hik
            rcases (List.mem_cons).mp (by simpa using hev) with h1 | h2
            · exact h1 ▸ lt_of_not_le hta
            · exact ih k hrec ev h2

/-- C3, amended: the retained truncated basis is the prefix of eigenmodes
strictly preceding the first mode whose explained-variance entry meets the
threshold: every retained entry is strictly below the threshold, and the
retained prefix is one mode shorter than the smallest prefix meeting the
threshold. -/
theorem truncated_basis_keeps_modes_strictly_below_threshold
    (basis : Mat) (eigenvals : Vec) (t : ℚ) (idx : ℕ)
    (h : first_index_meeting t eigenvals = some idx) :
    truncated_basis basis eigenvals t = some (basis.take idx)
    ∧ (∀ ev ∈ eigenvals.take idx, ev < t)
    ∧ claimed_truncation_len eigenvals t = some (idx + 1) := by
  exact ⟨by simp [truncated_basis, h], first_index_meeting_take_lt t eigenvals idx h,
    by simp [claimed_truncation_len, h]⟩

/-- Witness for C3 at a concrete eigenvalue list. -/
theorem truncated_basis_keeps_modes_strictly_below_threshold_witness :
    first_index_meeting 95 [50, 96] = some 1
    ∧ (truncated_basis [[1, 0], [0, 1]] [50, 96] 95 = some (List.take 1 [[(1 : ℚ), 0], [0, 1]])
       ∧ (∀ ev ∈ List.take 1 [(50 : ℚ), 96], ev < 95)
       ∧ claimed_truncation_len [50, 96] 95 = some 2) :=
  ⟨by norm_num [first_index_meeting],
   truncated_basis_keeps_modes_strictly_below_threshold [[1, 0], [0, 1]] [50, 96] 95 1
     (by norm_num [first_index_meeting])⟩

/-! ### Claim C1 -/

/-- getD of a mapped list below its length. -/
theorem getD_map_of_lt {α β : Type} (f : α → β) (d : α) (e : β) :
    ∀ (l : List α) (j : ℕ), j < l.length → (l.map f).getD j e = f (l.getD j d)
  | [], j, h => absurd h (by simp)
  | _ :: _, 0, _ => rfl
  | _ :: l, j + 1, h => getD_map_of_lt f d e l j (by simpa using h)

/-- getD of an elementwise sum below both lengths. -/
theorem zipWith_add_getD :
    ∀ (a b : Vec) (j : ℕ), j < a.length → j < b.length →
      (List.zipWith (· + ·) a b).getD j 0 = a.getD j 0 + b.getD j 0
  | [], _, _, ha, _ => absurd ha (by simp)
  | _ :: _, [], _, _, hb => absurd hb (by simp)
  | _ :: _, _ :: _, 0, _, _ => rfl
  | _ :: a, _ :: b, j + 1, ha, hb =>
      zipWith_add_getD a b j (by simpa using ha) (by simpa using hb)

/-- getD of a zero vector is zero. -/
theorem replicate_zero_getD (L j : ℕ) : (List.replicate L (0 : ℚ)).getD j 0 = 0 := by
  induction L generalizing j with
  | zero => simp
  | succ n ih =>
      cases j with
      | zero => simp [List.replicate_succ]
      | succ j => simpa [List.replicate_succ] using ih j

/-- The column sum of a matrix with row length L has length L. -/
theorem col_sum_length (L : ℕ) :
    ∀ (m : Mat), (∀ r ∈ m, r.length = L) → (col_sum L m).length = L
  | [], _ => by simp [col_sum]
  | r :: rs, h => by
      have hr : r.length = L := h r (by simp)
      have ih := col_sum_length L rs (fun x hx => h x (by simp [hx]))
      simp only [col_sum, List.foldr_cons] at ih ⊢
      simp [List.length_zipWith, hr, ih]

/-- Entry j of the column sum is the sum of the entries j of the rows. -/
theorem col_sum_getD (L j : ℕ) (hj : j < L) :
    ∀ (m : Mat), (∀ r ∈ m, r.length = L) →
      (col_sum L m).getD j 0 = (m.map (fun r => r.getD j 0)).sum
  | [], _ => by simp [col_sum, replicate_zero_getD]
  | r :: rs, h => by
      have hr : r.length = L := h r (by simp)
      have hrs : ∀ x ∈ rs, x.length = L := fun x hx => h x (by simp [hx])
      have hlen := col_sum_length L rs hrs
      have ih := col_sum_getD L j hj rs hrs
      simp only [col_sum] at hlen
      simp only [col_sum, List.foldr_cons] at ih ⊢
      rw [zipWith_add_getD r _ j (by rw [hr]; exact hj) (by rw [hlen]; exact hj), ih]
      simp

/-- A sum over a zipped pair of equal-length lists is a sum over the index range. -/
theorem sum_map_zip (f : List ℚ × List ℚ → ℚ) :
    ∀ (m v : Mat), m.length = v.length →
      ((List.zip m v).map f).sum
        = ∑ i ∈ Finset.range m.length, f (m.getD i [], v.getD i [])
  | [], _, _ => by simp
  | _ :: _, [], h => by simp at h
  | a :: m, b :: v, h => by
      have ih := sum_map_zip f m v (by simpa using h)
      simp only [List.zip_cons_cons, List.map_cons, List.sum_cons, List.length_cons]
      rw [Finset.sum_range_succ']
      simp only [List.getD_cons_succ, List.getD_cons_zero]
      rw [← ih]
      ring

/-- A matrix all of whose rows are singletons has as many entries as rows. -/
theorem np_size_of_singleton_rows :
    ∀ (m : Mat), (∀ r ∈ m, r.length = 1) → np_size m = m.length
  | [], _ => rfl
  | r :: rs, h => by
      have hr : r.length = 1 := h r (by simp)
      have ih := np_size_of_singleton_rows rs (fun x hx => h x (by simp [hx]))
      simp [np_size, hr] at ih ⊢
      omega

/-- C1: every entry of the p_yhf_mean vector produced by calculate_p_yhf_mean is
the pointwise average, over the N Monte-Carlo points, of the Gaussian pdf with
mean m_f_mc[i] and standard deviation sqrt(var_y_mc[i]) evaluated at the
corresponding support point. -/
theorem calculate_p_yhf_mean_is_pointwise_gaussian_average (ops : NumOps)
    (support : Vec) (m v : Mat) (N j : ℕ)
    (hmN : m.length = N) (hvN : v.length = N) (hN : 0 < N)
    (hrows : ∀ r ∈ m, r.length = 1) (hj : j < support.length) :
    (calculate_p_yhf_mean ops support m v).getD j 0
      = 1 / (N : ℚ) * ∑ i ∈ Finset.range N,
          ops.normpdf (support.getD j 0) ((m.getD i []).headD 0)
            (ops.sqrt ((v.getD i []).headD 0)) := by
  unfold calculate_p_yhf_mean
  have hrowsL : ∀ r ∈ (List.zip m v).map (fun mv =>
      support.map (fun y => ops.normpdf y (mv.1.headD 0) (ops.sqrt (mv.2.headD 0)))),
      r.length = support.length := by
    intro r hr
    rcases List.mem_map.mp hr with ⟨mv, _, rfl⟩
    simp
  have hcs_len := col_sum_length support.length _ hrowsL
  rw [getD_map_of_lt (fun s => 1 / (np_size m : ℚ) * s) 0 0 _ j
    (by rw [hcs_len]; exact hj)]
  rw [col_sum_getD support.length j hj _ hrowsL]
  rw [List.map_map]
  have hmap : ((fun r => r.getD j 0) ∘ fun mv =>
        support.map (fun y => ops.normpdf y (mv.1.headD 0) (ops.sqrt (mv.2.headD 0))))
      = fun mv : List ℚ × List ℚ =>
          ops.normpdf (support.getD j 0) (mv.1.headD 0) (ops.sqrt (mv.2.headD 0)) := by
    funext mv
    exact getD_map_of_lt _ 0 0 support j hj
  rw [hmap]
  rw [sum_map_zip _ m v (by rw [hmN, hvN])]
  rw [np_size_of_singleton_rows m hrows, hmN]

/-- Witness for C1 on a two-point Monte-Carlo sample and a two-point support. -/
theorem calculate_p_yhf_mean_is_pointwise_gaussian_average_witness :
    ((0 : ℕ) < 2 ∧ (0 : ℕ) < List.length [(2 : ℚ), 5]
      ∧ (calculate_p_yhf_mean affineNumOps [2, 5] [[1], [3]] [[4], [9]]).getD 0 0 = 51 / 2)
    ∧ (calculate_p_yhf_mean affineNumOps [2, 5] [[1], [3]] [[4], [9]]).getD 0 0
        = 1 / ((2 : ℕ) : ℚ) * ∑ i ∈ Finset.range 2,
            affineNumOps.normpdf (List.getD [(2 : ℚ), 5] 0 0)
              ((List.getD [[(1 : ℚ)], [3]] i []).headD 0)
              (affineNumOps.sqrt ((List.getD [[(4 : ℚ)], [9]] i []).headD 0)) :=
  ⟨⟨by norm_num, by norm_num,
    by norm_num [calculate_p_yhf_mean, col_sum, np_size, affineNumOps,
      List.getD_cons_zero, List.getD_cons_succ]⟩,
   calculate_p_yhf_mean_is_pointwise_gaussian_average affineNumOps [2, 5] [[1], [3]]
     [[4], [9]] 2 0 rfl rfl (by norm_num) (by simp) (by norm_num)⟩

/-! ### Claim C6 -/

/-- get_hf_training_data writes only the Y_HF_train field. -/
theorem get_hf_training_data_frame (st st2 : BMFMCModel σ)
    (h : BMFMCModel.get_hf_training_data st = Except.ok st2) :
    ∃ y, st2 = { st with Y_HF_train := y } := by
  unfold BMFMCModel.get_hf_training_data at h
  split at h
  · exact absurd h (by simp)
  · split at h
    · injection h with h
      exact ⟨_, h.symm⟩
    · split at h
      · exact absurd h (by simp)
      · split at h
        · exact absurd h (by simp)
        · injection h with h
          exact ⟨_, h.symm⟩
    · exact absurd h (by simp)

/-- build_approximation without features writes only Y_HF_train and the
probabilistic mapping state. -/
theorem build_approximation_false_frame (pmOps : ProbMapping σ) (st st2 : BMFMCModel σ)
    (h : BMFMCModel.build_approximation pmOps st false = Except.ok st2) :
    ∃ y p, st2 = { st with Y_HF_train := y, probabilistic_mapping := p } := by
  unfold BMFMCModel.build_approximation at h
  split at h
  · exact absurd h (by simp)
  next st1 hst1 =>
    obtain ⟨y, rfl⟩ := get_hf_training_data_frame st st1 hst1
    simp only [Bool.false_eq_true, if_false] at h
    split at h
    · split at h
      · exact absurd h (by simp)
      · injection h with h
        exact ⟨_, _, h.symm⟩
    · exact absurd h (by simp)

/-- calculate_p_yhf_mean_m writes only the p_yhf_mean field. -/
theorem calculate_p_yhf_mean_m_frame (ops : NumOps) (st st2 : BMFMCModel σ)
    (h : BMFMCModel.calculate_p_yhf_mean_m ops st = Except.ok st2) :
    ∃ a, st2 = { st with p_yhf_mean := a } := by
  unfold BMFMCModel.calculate_p_yhf_mean_m at h
  split at h
  · injection h with h
    exact ⟨_, h.symm⟩
  · exact absurd h (by simp)

/-- calculate_p_yhf_var_m writes only the p_yhf_var field. -/
theorem calculate_p_yhf_var_m_frame (ops : NumOps) (pmOps : ProbMapping σ)
    (st st2 : BMFMCModel σ)
    (h : BMFMCModel.calculate_p_yhf_var_m ops pmOps st = Except.ok st2) :
    ∃ b, st2 = { st with p_yhf_var := b } := by
  unfold BMFMCModel.calculate_p_yhf_var_m at h
  split at h
  · exact absurd h (by simp)
  · split at h
    · exact absurd h (by simp)
    · split at h
      · injection h with h
        exact ⟨_, h.symm⟩
      · exact absurd h (by simp)

/-- compute_pyhf_statistics writes only p_yhf_mean and p_yhf_var. -/
theorem compute_pyhf_statistics_frame (ops : NumOps) (pmOps : ProbMapping σ)
    (st st2 : BMFMCModel σ)
    (h : BMFMCModel.compute_pyhf_statistics ops pmOps st = Except.ok st2) :
    ∃ a b, st2 = { st with p_yhf_mean := a, p_yhf_var := b } := by
  unfold BMFMCModel.compute_pyhf_statistics at h
  split at h
  · exact absurd h (by simp)
  next st1 hst1 =>
    obtain ⟨a, rfl⟩ := calculate_p_yhf_mean_m_frame ops st st1 hst1
    split at h
    · obtain ⟨b, rfl⟩ := calculate_p_yhf_var_m_frame ops pmOps _ st2 h
      exact ⟨a, b, rfl⟩
    · injection h with h
      exact ⟨a, none, h.symm⟩

/-- C6, amended: run_BMFMC_without_features returns the comparison densities as
the p_yhf_mean and p_yhf_var fields it has just overwritten; besides those it
mutates Y_HF_train, the trained mapping state, m_f_mc, var_y_mc and
f_mean_train, and it leaves every other instance field unchanged. -/
theorem run_BMFMC_without_features_frame (ops : NumOps) (pmOps : ProbMapping σ)
    (st : BMFMCModel σ) (r : (Option Vec × Option Vec) × BMFMCModel σ)
    (h : BMFMCModel.run_BMFMC_without_features ops pmOps st = Except.ok r) :
    r.2 = { st with
            Y_HF_train := r.2.Y_HF_train
            probabilistic_mapping := r.2.probabilistic_mapping
            m_f_mc := r.2.m_f_mc
            var_y_mc := r.2.var_y_mc
            f_mean_train := r.2.f_mean_train
            p_yhf_mean := r.2.p_yhf_mean
            p_yhf_var := r.2.p_yhf_var }
    ∧ r.1 = (r.2.p_yhf_mean, r.2.p_yhf_var) := by
  unfold BMFMCModel.run_BMFMC_without_features at h
  split at h
  · exact absurd h (by simp)
  next st1 hb =>
    obtain ⟨y, p, rfl⟩ := build_approximation_false_frame pmOps st st1 hb
    split at h
    · split at h
      · exact absurd h (by simp)
      · split at h
        · exact absurd h (by simp)
        · split at h
          · exact absurd h (by simp)
          next st2 hc =>
            obtain ⟨a, b, rfl⟩ := compute_pyhf_statistics_frame ops pmOps _ st2 hc
            injection h with h
            subst h
            exact ⟨rfl, rfl⟩
    · exact absurd h (by simp)

/-- C6, counterexample: a concrete run of run_BMFMC_without_features changes the
instance field m_f_mc from None to a value (and fills p_yhf_mean), so the call
does mutate the main state of the orchestrator. -/
theorem run_BMFMC_without_features_mutates_state :
    BMFMCModel.run_BMFMC_without_features trivNumOps trivPmOps baseState
        = Except.ok ((afterNoFeaturesRun.p_yhf_mean, none), afterNoFeaturesRun)
    ∧ baseState.m_f_mc = none
    ∧ afterNoFeaturesRun.m_f_mc = some [[2]]
    ∧ afterNoFeaturesRun.p_yhf_mean = some [1] :=
  ⟨rfl, rfl, rfl,
   by norm_num [afterNoFeaturesRun, calculate_p_yhf_mean, col_sum, np_size, trivNumOps,
     baseState]⟩

/-- Witness for the C6 frame theorem at the concrete run from baseState. -/
theorem run_BMFMC_without_features_frame_witness :
    BMFMCModel.run_BMFMC_without_features trivNumOps trivPmOps baseState
        = Except.ok ((afterNoFeaturesRun.p_yhf_mean, none), afterNoFeaturesRun)
    ∧ (afterNoFeaturesRun = { baseState with
          Y_HF_train := afterNoFeaturesRun.Y_HF_train
          probabilistic_mapping := afterNoFeaturesRun.probabilistic_mapping
          m_f_mc := afterNoFeaturesRun.m_f_mc
          var_y_mc := afterNoFeaturesRun.var_y_mc
          f_mean_train := afterNoFeaturesRun.f_mean_train
          p_yhf_mean := afterNoFeaturesRun.p_yhf_mean
          p_yhf_var := afterNoFeaturesRun.p_yhf_var }
        ∧ (afterNoFeaturesRun.p_yhf_mean, (none : Option Vec))
            = (afterNoFeaturesRun.p_yhf_mean, afterNoFeaturesRun.p_yhf_var)) :=
  ⟨rfl,
   run_BMFMC_without_features_frame trivNumOps trivPmOps baseState
     ((afterNoFeaturesRun.p_yhf_mean, none), afterNoFeaturesRun) rfl⟩

end BMFMC
